import Mathlib

/-!
Verification of `boe.py` (datania/boe): a bounded-concurrency pipeline that,
for each calendar date in a range, checks a filesystem cache, fetches a JSON
summary from an API, extracts PDF URLs and downloads them, and aggregates
per-day outcomes into run statistics.

The Python source is shallowly embedded: each network/filesystem effect is
recorded in an event trace, and the remote world (cache state, per-attempt
summary responses, per-download success) is an explicit environment.  An
uncaught Python exception (the `AttributeError` raised by `dict.get`
navigation on a non-dict value) is modelled as `Except.error`.
-/

namespace BOE

/-- Module constant `MAX_RETRIES = 3` from boe.py line 13. -/
def MAX_RETRIES : Nat := 3

/-- Module constant `RETRY_DELAY = 30` from boe.py line 14. -/
def RETRY_DELAY : Nat := 30

/-- A JSON value, the result of `response.json()`.  Python `None` (JSON
`null`) is `Json.null`; a Python dict is `Json.obj` with first-match lookup. -/
inductive Json where
  | null : Json
  | bool (b : Bool) : Json
  | num (n : Int) : Json
  | str (s : String) : Json
  | arr (xs : List Json) : Json
  | obj (kvs : List (String × Json)) : Json

/-- Python `j.get(k, d)`: succeeds only when `j` is a dict, otherwise raises
`AttributeError` (modelled as `Except.error ()`). -/
def Json.getD (j : Json) (k : String) (d : Json) : Except Unit Json :=
  match j with
  | .obj kvs => .ok ((kvs.lookup k).getD d)
  | _ => .error ()

/-- Python truthiness of a JSON value, as tested by `if pdf_url := ...`. -/
def Json.truthy : Json → Bool
  | .null => false
  | .bool b => b
  | .num n => n != 0
  | .str s => !(s == "")
  | .arr xs => !xs.isEmpty
  | .obj kvs => !kvs.isEmpty

/-- One entry of the loop body at boe.py lines 75-79: navigate
`diario["sumario_diario"]["url_pdf"]["texto"]`; a truthy URL yields the pair
`(url, identifier)`, a falsy one is skipped. -/
def extractEntry (diario : Json) : Except Unit (Option (Json × Json)) := do
  let sumario ← diario.getD "sumario_diario" (.obj [])
  let urlPdf ← sumario.getD "url_pdf" (.obj [])
  let texto ← urlPdf.getD "texto" .null
  if texto.truthy then
    let identifier ← sumario.getD "identificador" (.str "unknown")
    return some (texto, identifier)
  else
    return none

/-- The `for diario in diarios` accumulation at boe.py lines 75-79. -/
def extractLoop : List Json → Except Unit (List (Json × Json))
  | [] => .ok []
  | d :: rest => do
    let e ← extractEntry d
    let es ← extractLoop rest
    match e with
    | some p => .ok (p :: es)
    | none => .ok es

/-- PDF extraction from the parsed summary body, boe.py lines 70-79:
`data.get("data", {}).get("sumario", {}).get("diario", [])`, wrapping a
non-list `diario` in a singleton list, then the entry loop. -/
def extractPdfs (data : Json) : Except Unit (List (Json × Json)) := do
  let d1 ← data.getD "data" (.obj [])
  let d2 ← d1.getD "sumario" (.obj [])
  let diario ← d2.getD "diario" (.arr [])
  let diarios := match diario with
    | .arr xs => xs
    | j => [j]
  extractLoop diarios

/-- A calendar date (no time component). -/
structure Date where
  year : Nat
  month : Nat
  day : Nat
deriving DecidableEq, Repr

/-- Zero-pad a natural number to `w` digits, as `strftime` does. -/
def pad (w n : Nat) : String :=
  let s := toString n
  String.mk (List.replicate (w - s.length) '0') ++ s

/-- The artifact path `output_dir / date.strftime("%Y/%m/%d") / "boe.pdf"`
computed at boe.py lines 41 and 84.  It depends only on the output root and
the date, never on a publication entry. -/
def pdfPath (outputDir : String) (d : Date) : String :=
  outputDir ++ "/" ++ pad 4 d.year ++ "/" ++ pad 2 d.month ++ "/" ++
    pad 2 d.day ++ "/boe.pdf"

/-- An observable effect of one day's processing. -/
inductive Event where
  | summaryFetch : Event
  | artifactFetch : Event
  | sleep (secs : Nat) : Event
  | write (path : String) : Event
deriving DecidableEq, Repr

/-- What one attempt of the summary GET (boe.py line 49) observes:
HTTP 404, a retryable failure (network error or non-404 HTTP error raised by
`raise_for_status`), or a 2xx response with parsed JSON body. -/
inductive SummaryResp where
  | notFound : SummaryResp
  | err : SummaryResp
  | ok (body : Json) : SummaryResp

/-- The world one `process_date` call runs against: whether the artifact file
already exists, the response of the summary endpoint at each attempt index,
and whether download `i`'s attempt `a` succeeds. -/
structure Env where
  cached : Bool
  summary : Nat → SummaryResp
  download : Nat → Nat → Bool

/-- Result of the summary retry loop at boe.py lines 47-67. -/
inductive SummaryOutcome where
  | noBoe : SummaryOutcome
  | err : SummaryOutcome
  | got (body : Json) : SummaryOutcome

/-- The summary retry loop, boe.py lines 47-64: `remaining` attempts are left
and the next one has index `attempt`.  A 404 returns `no_boe` at once; a 2xx
breaks with the body; a failure sleeps `RETRY_DELAY * (attempt + 1)` unless it
was the last attempt, which yields `error`.  (`remaining = 0` is the `data is
None` fall-through at lines 66-67.) -/
def fetchSummaryGo (s : Nat → SummaryResp) : Nat → Nat → List Event × SummaryOutcome
  | _, 0 => ([], .err)
  | attempt, r + 1 =>
    match s attempt with
    | .notFound => ([.summaryFetch], .noBoe)
    | .ok body => ([.summaryFetch], .got body)
    | .err =>
      if r = 0 then ([.summaryFetch], .err)
      else
        let (evs, out) := fetchSummaryGo s (attempt + 1) r
        (.summaryFetch :: .sleep (RETRY_DELAY * (attempt + 1)) :: evs, out)

/-- The summary fetch of `process_date`, starting at attempt 0 with
`MAX_RETRIES` attempts available. -/
def fetchSummary (s : Nat → SummaryResp) : List Event × SummaryOutcome :=
  fetchSummaryGo s 0 MAX_RETRIES

/-- The retry loop of `download_pdf`, boe.py lines 19-31: on success the body
is written to `path`; on failure the loop sleeps `RETRY_DELAY * (attempt + 1)`
unless this was the last attempt, in which case the error is re-raised
(`Except.error ()`). -/
def downloadPdfGo (dl : Nat → Bool) (path : String) :
    Nat → Nat → List Event × Except Unit Unit
  | _, 0 => ([], .error ())
  | attempt, r + 1 =>
    if dl attempt then
      ([.artifactFetch, .write path], .ok ())
    else if r = 0 then
      ([.artifactFetch], .error ())
    else
      let (evs, out) := downloadPdfGo dl path (attempt + 1) r
      (.artifactFetch :: .sleep (RETRY_DELAY * (attempt + 1)) :: evs, out)

/-- `download_pdf(session, url, path)`, boe.py lines 17-31, with the attempt
outcomes for this URL given by `dl`. -/
def download_pdf (dl : Nat → Bool) (path : String) :
    List Event × Except Unit Unit :=
  downloadPdfGo dl path 0 MAX_RETRIES

/-- The download loop of `process_date`, boe.py lines 82-91: each entry
recomputes the same `pdf_path` from the date, calls `download_pdf`, counts a
success, and catches any failure (`except Exception`). `i` is the position of
the current entry among all discovered entries. -/
def downloadAll (dl : Nat → Nat → Bool) (outputDir : String) (d : Date) :
    List (Json × Json) → Nat → List Event × Nat
  | [], _ => ([], 0)
  | _ :: rest, i =>
    let (evs, res) := download_pdf (dl i) (pdfPath outputDir d)
    let (evs2, n) := downloadAll dl outputDir d rest (i + 1)
    (evs ++ evs2, (match res with | .ok _ => 1 | .error _ => 0) + n)

/-- `process_date(session, date, output_dir)`, boe.py lines 34-92.  Returns
the event trace and either the day outcome `(downloaded, status)` or an
uncaught exception (`AttributeError` from PDF extraction). -/
def process_date (env : Env) (outputDir : String) (d : Date) :
    List Event × Except Unit (Nat × String) :=
  if env.cached then ([], .ok (0, "cached"))
  else
    let (evs, out) := fetchSummary env.summary
    match out with
    | .noBoe => (evs, .ok (0, "no_boe"))
    | .err => (evs, .ok (0, "error"))
    | .got body =>
      match extractPdfs body with
      | .error _ => (evs, .error ())
      | .ok pdfs =>
        let (devs, n) := downloadAll env.download outputDir d pdfs 0
        (evs ++ devs, .ok (n, "success"))

/-- The date range loop of `download_boe_pdfs`, boe.py lines 102-106:
`while current <= end_date: dates.append(current); current += timedelta(days=1)`.
Dates are represented by their day ordinal (days since an arbitrary epoch),
which the one-day step and comparison act on. -/
def genDates (start e : Int) : List Int :=
  if start ≤ e then start :: genDates (start + 1) e else []
termination_by (e + 1 - start).toNat
decreasing_by simp_wf; omega

/-- The statistics dict `{"downloaded": 0, "no_boe": 0, "errors": 0,
"cached": 0}` of boe.py line 112. -/
structure Stats where
  downloaded : Nat
  no_boe : Nat
  errors : Nat
  cached : Nat
deriving DecidableEq, Repr

/-- One step of the aggregation loop, boe.py lines 127-135: add the day's
count to `downloaded` and tally the status when it is `no_boe`, `error` or
`cached` (a `success` status increments no tally). -/
def stepStats (s : Stats) (r : Nat × String) : Stats :=
  let s' : Stats := { s with downloaded := s.downloaded + r.1 }
  if r.2 = "no_boe" then { s' with no_boe := s'.no_boe + 1 }
  else if r.2 = "error" then { s' with errors := s'.errors + 1 }
  else if r.2 = "cached" then { s' with cached := s'.cached + 1 }
  else s'

/-- The aggregation of all day outcomes, boe.py lines 112 and 127-135. -/
def aggregate (rs : List (Nat × String)) : Stats :=
  rs.foldl stepStats ⟨0, 0, 0, 0⟩

/-- Run `process_date` for each date in order and collect the outcomes; an
uncaught exception in any day propagates (as it would through
`asyncio.gather`). `envOf` gives each date its world and `dateOf` its
calendar form (used for paths). -/
def runAll (envOf : Int → Env) (dateOf : Int → Date) (outputDir : String) :
    List Int → Except Unit (List (Nat × String))
  | [] => .ok []
  | d :: rest => do
    let r ← (process_date (envOf d) outputDir (dateOf d)).2
    let rs ← runAll envOf dateOf outputDir rest
    return r :: rs

/-- `download_boe_pdfs(start_date, end_date, concurrency, output_dir)`,
boe.py lines 95-149, as seen in its final statistics: generate the date
range, process every date, and aggregate the outcomes.  (The semaphore and
progress printing have no effect on the returned statistics.) -/
def download_boe_pdfs (envOf : Int → Env) (dateOf : Int → Date)
    (outputDir : String) (start e : Int) : Except Unit Stats :=
  (runAll envOf dateOf outputDir (genDates start e)).map aggregate

/-! ### Concrete environments used as witnesses and counterexamples -/

/-- A world whose artifact file already exists. -/
def envCached : Env := ⟨true, fun _ => .err, fun _ _ => false⟩

/-- A world answering HTTP 404 to every summary request. -/
def envNotFound : Env := ⟨false, fun _ => .notFound, fun _ _ => false⟩

/-- A world where every network request fails. -/
def envAllFail : Env := ⟨false, fun _ => .err, fun _ _ => false⟩

/-- A world whose summary endpoint answers 2xx with the JSON body `[]`:
valid JSON, but a top-level array rather than the expected object. -/
def envArrBody : Env := ⟨false, fun _ => .ok (.arr []), fun _ _ => false⟩

/-- A summary body with one publication entry carrying a URL. -/
def bodyOneEntry : Json :=
  .obj [("data", .obj [("sumario", .obj [("diario",
    .obj [("sumario_diario", .obj [("url_pdf", .obj [("texto", .str "u")]),
      ("identificador", .str "BOE-S-1")])])])])]

/-- A world whose summary yields `bodyOneEntry` and whose downloads all
succeed on the first attempt. -/
def envOneEntry : Env := ⟨false, fun _ => .ok bodyOneEntry, fun _ _ => true⟩

/-! ### Theorems -/

/-- Claim C1: when the artifact file already exists, `process_date` returns
the outcome `(0, "cached")` with an empty event trace: no summary fetch, no
artifact download, no sleep, no write. -/
theorem c1_cached_zero_network (env : Env) (outputDir : String) (d : Date)
    (h : env.cached = true) :
    process_date env outputDir d = ([], .ok (0, "cached")) := by
  simp [process_date, h]

/-- Witness for C1 at a concrete cached world. -/
theorem c1_cached_zero_network_witness :
    envCached.cached = true ∧
      process_date envCached "boe" ⟨2024, 1, 7⟩ = ([], .ok (0, "cached")) :=
  ⟨rfl, c1_cached_zero_network envCached "boe" ⟨2024, 1, 7⟩ rfl⟩

/-- Claim C2: when the first summary request answers HTTP 404,
`process_date` returns `(0, "no_boe")` after exactly one summary fetch — no
retry, no sleep, and no artifact fetch. -/
theorem c2_notfound_no_retry (env : Env) (outputDir : String) (d : Date)
    (hc : env.cached = false) (h404 : env.summary 0 = .notFound) :
    process_date env outputDir d = ([.summaryFetch], .ok (0, "no_boe")) := by
  simp [process_date, hc, fetchSummary, MAX_RETRIES, fetchSummaryGo, h404]

/-- Witness for C2 at a concrete 404-answering world. -/
theorem c2_notfound_no_retry_witness :
    envNotFound.cached = false ∧ envNotFound.summary 0 = .notFound ∧
      process_date envNotFound "boe" ⟨2024, 1, 7⟩ =
        ([.summaryFetch], .ok (0, "no_boe")) :=
  ⟨rfl, rfl, c2_notfound_no_retry envNotFound "boe" ⟨2024, 1, 7⟩ rfl rfl⟩

/-- Claim C9: when the start date is after the end date, the generated date
sequence is empty and the run completes normally with every statistic
(downloaded, cached, no_boe, errors) equal to zero. -/
theorem c9_empty_range (envOf : Int → Env) (dateOf : Int → Date)
    (outputDir : String) (s e : Int) (h : e < s) :
    genDates s e = [] ∧
      download_boe_pdfs envOf dateOf outputDir s e = .ok ⟨0, 0, 0, 0⟩ := by
  have hg : genDates s e = [] := by
    rw [genDates]
    simp [not_le.mpr h]
  exact ⟨hg, by simp [download_boe_pdfs, hg, runAll, aggregate, Except.map]⟩

/-- Witness for C9 on the concrete inverted range 5 > 3. -/
theorem c9_empty_range_witness :
    (3 : Int) < 5 ∧
      (genDates 5 3 = [] ∧
        download_boe_pdfs (fun _ => envAllFail) (fun _ => ⟨2024, 1, 7⟩)
          "boe" 5 3 = .ok ⟨0, 0, 0, 0⟩) :=
  ⟨by decide,
    c9_empty_range (fun _ => envAllFail) (fun _ => ⟨2024, 1, 7⟩) "boe" 5 3
      (by decide)⟩

/-- Claim C4, counterexample: with every summary request failing, the trace
of `process_date` holds exactly three fetch attempts separated by sleeps of
30 s and 60 s; no 90 s delay ever occurs and no third retry is issued, so
the claimed schedule "30s, 60s, 90s" is false. -/
theorem c4_counterexample :
    (process_date envAllFail "boe" ⟨2024, 1, 7⟩).1 =
      [.summaryFetch, .sleep 30, .summaryFetch, .sleep 60, .summaryFetch] ∧
      Event.sleep 90 ∉ (process_date envAllFail "boe" ⟨2024, 1, 7⟩).1 := by
  constructor <;> decide

/-- Claim C4 as amended: both loops make up to `MAX_RETRIES` (3) total
attempts, i.e. at most 2 retries, sleeping `RETRY_DELAY * attempt_number`
before each retry — delays of 30 s and 60 s only; after the third failed
attempt the failure is surfaced to the immediate caller: the summary loop
yields the outcome `(0, "error")`, and `download_pdf` re-raises
(`Except.error`). -/
theorem c4_amended (env : Env) (outputDir : String) (d : Date)
    (dl : Nat → Bool) (path : String)
    (hc : env.cached = false) (hs : ∀ a, env.summary a = .err)
    (hd : ∀ a, dl a = false) :
    process_date env outputDir d =
      ([.summaryFetch, .sleep (RETRY_DELAY * 1), .summaryFetch,
        .sleep (RETRY_DELAY * 2), .summaryFetch], .ok (0, "error")) ∧
      download_pdf dl path =
        ([.artifactFetch, .sleep (RETRY_DELAY * 1), .artifactFetch,
          .sleep (RETRY_DELAY * 2), .artifactFetch], .error ()) := by
  constructor
  · simp [process_date, hc, fetchSummary, MAX_RETRIES, fetchSummaryGo, hs]
  · simp [download_pdf, MAX_RETRIES, downloadPdfGo, hd]

/-- Witness for the amended C4 at the all-failing world. -/
theorem c4_amended_witness :
    envAllFail.cached = false ∧
      (process_date envAllFail "boe" ⟨2024, 1, 7⟩ =
        ([.summaryFetch, .sleep (RETRY_DELAY * 1), .summaryFetch,
          .sleep (RETRY_DELAY * 2), .summaryFetch], .ok (0, "error")) ∧
        download_pdf (fun _ => false) "boe/2024/01/07/boe.pdf" =
          ([.artifactFetch, .sleep (RETRY_DELAY * 1), .artifactFetch,
            .sleep (RETRY_DELAY * 2), .artifactFetch], .error ())) :=
  ⟨rfl, c4_amended envAllFail "boe" ⟨2024, 1, 7⟩ (fun _ => false)
    "boe/2024/01/07/boe.pdf" rfl (fun _ => rfl) (fun _ => rfl)⟩

/-- In the non-cached case with a 2xx summary whose extraction succeeds,
`process_date` runs the download loop and reports `success`. -/
theorem process_date_success_case (env : Env) (outputDir : String) (d : Date)
    (body : Json) (ps : List (Json × Json)) (evs : List Event)
    (hc : env.cached = false)
    (hs : fetchSummary env.summary = (evs, .got body))
    (he : extractPdfs body = .ok ps) :
    process_date env outputDir d =
      (evs ++ (downloadAll env.download outputDir d ps 0).1,
       .ok ((downloadAll env.download outputDir d ps 0).2, "success")) := by
  simp [process_date, hc, hs, he]

/-- Claim C5, counterexample: a 2xx summary whose JSON body is the top-level
array `[]` (valid JSON, unexpected shape) makes `process_date` raise — the
`data.get("data", {})` navigation is an `AttributeError` on a non-dict, and
nothing catches it — instead of degrading to `(0, "success")`. -/
theorem c5_counterexample :
    (process_date envArrBody "boe" ⟨2024, 1, 7⟩).2 = .error () := rfl

/-- Claim C5 as amended: when the 2xx body's field navigation never meets a
non-dict value — in particular when expected fields are merely missing —
extraction succeeds and `process_date` returns `(n, "success")`, with `n = 0`
when no URL-bearing entry was found; but a body whose navigation meets a
non-dict (e.g. a top-level array) raises an uncaught `AttributeError`. -/
theorem c5_amended (env : Env) (outputDir : String) (d : Date) (body : Json)
    (ps : List (Json × Json))
    (hc : env.cached = false)
    (hs : (fetchSummary env.summary).2 = .got body)
    (he : extractPdfs body = .ok ps) :
    ∃ n, (process_date env outputDir d).2 = .ok (n, "success") ∧
      (ps = [] → n = 0) := by
  rcases hfs : fetchSummary env.summary with ⟨evs, out⟩
  rw [hfs] at hs
  have hout : out = .got body := hs
  subst hout
  refine ⟨(downloadAll env.download outputDir d ps 0).2, ?_, ?_⟩
  · rw [process_date_success_case env outputDir d body ps evs hc hfs he]
  · intro hps
    subst hps
    simp [downloadAll]

/-- Witness for the amended C5: a body with the `data` field missing yields
zero entries and the outcome `(0, "success")`. -/
theorem c5_amended_witness :
    (⟨false, fun _ => .ok (.obj []), fun _ _ => false⟩ : Env).cached = false ∧
      (fetchSummary (fun _ => .ok (.obj []))).2 = .got (.obj []) ∧
      extractPdfs (.obj []) = .ok [] ∧
      ∃ n, (process_date ⟨false, fun _ => .ok (.obj []), fun _ _ => false⟩
        "boe" ⟨2024, 1, 7⟩).2 = .ok (n, "success") ∧ ([] = ([] : List (Json × Json)) → n = 0) :=
  ⟨rfl, rfl, rfl,
    c5_amended ⟨false, fun _ => .ok (.obj []), fun _ _ => false⟩ "boe"
      ⟨2024, 1, 7⟩ (.obj []) [] rfl rfl rfl⟩

/-- The statistics fold computes the sum of counts and one tally per status
string handled by the aggregation loop; a fourth status increments nothing
beyond `downloaded`. -/
theorem foldl_stepStats (rs : List (Nat × String)) : ∀ init : Stats,
    rs.foldl stepStats init =
      ⟨init.downloaded + (rs.map Prod.fst).sum,
       init.no_boe + rs.countP (fun r => r.2 == "no_boe"),
       init.errors + rs.countP (fun r => r.2 == "error"),
       init.cached + rs.countP (fun r => r.2 == "cached")⟩ := by
  induction rs with
  | nil => intro init; simp
  | cons r rest ih =>
    intro init
    rcases r with ⟨c, st⟩
    rw [List.foldl_cons, ih]
    by_cases h1 : st = "no_boe"
    · simp [stepStats, h1, Stats.mk.injEq, List.countP_cons]
      omega
    · by_cases h2 : st = "error"
      · simp [stepStats, h1, h2, Stats.mk.injEq, List.countP_cons]
        omega
      · by_cases h3 : st = "cached"
        · simp [stepStats, h1, h2, h3, Stats.mk.injEq, List.countP_cons]
          omega
        · simp [stepStats, h1, h2, h3, Stats.mk.injEq, List.countP_cons]
          omega

/-- The number of `success` outcomes in a result list — the tally the claim
says the run statistics contain. -/
def successTally (rs : List (Nat × String)) : Nat :=
  rs.countP (fun r => r.2 == "success")

/-- Claim C6, counterexample: the statistics of a run with one `success` day
equal the statistics of an empty run, so the aggregated statistics carry no
tally for the `success` status — only `no_boe`, `error` and `cached` days
are tallied. -/
theorem c6_counterexample :
    aggregate [(0, "success")] = aggregate [] ∧
      successTally [(0, "success")] ≠ successTally [] := by
  constructor <;> decide

/-- Claim C6 as amended: the final statistics are a commutative, associative
aggregation of the day outcomes — any permutation of the outcome list yields
the same statistics — with `downloaded` the sum of the per-day counts and one
tally for each of `no_boe`, `error` and `cached` (but none for `success`). -/
theorem c6_amended (l1 l2 : List (Nat × String)) (h : l1.Perm l2) :
    aggregate l1 = aggregate l2 ∧
      aggregate l1 =
        ⟨(l1.map Prod.fst).sum,
         l1.countP (fun r => r.2 == "no_boe"),
         l1.countP (fun r => r.2 == "error"),
         l1.countP (fun r => r.2 == "cached")⟩ := by
  have e1 := foldl_stepStats l1 ⟨0, 0, 0, 0⟩
  have e2 := foldl_stepStats l2 ⟨0, 0, 0, 0⟩
  constructor
  · rw [aggregate, aggregate, e1, e2, (h.map Prod.fst).sum_eq,
      h.countP_eq, h.countP_eq, h.countP_eq]
  · rw [aggregate, e1]
    simp

/-- Witness for the amended C6 on a concrete two-element swap. -/
theorem c6_amended_witness :
    [((2 : Nat), "success"), (0, "cached")].Perm [(0, "cached"), (2, "success")] ∧
      (aggregate [(2, "success"), (0, "cached")] =
          aggregate [(0, "cached"), (2, "success")] ∧
        aggregate [(2, "success"), (0, "cached")] =
          ⟨([((2 : Nat), "success"), (0, "cached")].map Prod.fst).sum,
           [((2 : Nat), "success"), (0, "cached")].countP (fun r => r.2 == "no_boe"),
           [((2 : Nat), "success"), (0, "cached")].countP (fun r => r.2 == "error"),
           [((2 : Nat), "success"), (0, "cached")].countP (fun r => r.2 == "cached")⟩) :=
  ⟨by decide,
    c6_amended [(2, "success"), (0, "cached")] [(0, "cached"), (2, "success")]
      (by decide)⟩

/-- The summary retry loop performs no filesystem write. -/
theorem fetchSummaryGo_no_write (s : Nat → SummaryResp) (p : String) :
    ∀ r a : Nat, Event.write p ∉ (fetchSummaryGo s a r).1 := by
  intro r
  induction r with
  | zero => intro a; simp [fetchSummaryGo]
  | succ r ih =>
    intro a
    rcases hs : s a with _ | _ | body
    · simp [fetchSummaryGo, hs]
    · by_cases hr : r = 0
      · simp [fetchSummaryGo, hs, hr]
      · simp only [fetchSummaryGo, hs, if_neg hr, List.mem_cons]
        push_neg
        exact ⟨by simp, by simp, ih (a + 1)⟩
    · simp [fetchSummaryGo, hs]

/-- Every write performed by the `download_pdf` retry loop goes to the path
it was given. -/
theorem downloadPdfGo_write (dl : Nat → Bool) (path p : String) :
    ∀ r a : Nat, Event.write p ∈ (downloadPdfGo dl path a r).1 → p = path := by
  intro r
  induction r with
  | zero => intro a h; simp [downloadPdfGo] at h
  | succ r ih =>
    intro a h
    by_cases hd : dl a
    · simp [downloadPdfGo, hd] at h
      exact h
    · by_cases hr : r = 0
      · simp [downloadPdfGo, hd, hr] at h
      · simp [downloadPdfGo, hd, hr] at h
        exact ih (a + 1) h

/-- Every write performed by the download loop of `process_date` goes to the
single per-date path `pdfPath outputDir d`. -/
theorem downloadAll_write (dl : Nat → Nat → Bool) (o : String) (d : Date)
    (p : String) :
    ∀ (ps : List (Json × Json)) (i : Nat),
      Event.write p ∈ (downloadAll dl o d ps i).1 → p = pdfPath o d := by
  intro ps
  induction ps with
  | nil => intro i h; simp [downloadAll] at h
  | cons q rest ih =>
    intro i h
    simp only [downloadAll, List.mem_append] at h
    rcases h with h | h
    · exact downloadPdfGo_write (dl i) (pdfPath o d) p MAX_RETRIES 0 h
    · exact ih (i + 1) h

/-- Claim C7: every artifact write of `process_date` targets the single
fixed path `<output_root>/<YYYY>/<MM>/<DD>/boe.pdf`, a function of the date
and output root alone — never of a publication entry's identifier — so with
several entries each later successful download overwrites the earlier one. -/
theorem c7_fixed_artifact_path (env : Env) (outputDir : String) (d : Date)
    (p : String) (h : Event.write p ∈ (process_date env outputDir d).1) :
    p = pdfPath outputDir d := by
  by_cases hc : env.cached
  · simp [process_date, hc] at h
  · rcases hfs : fetchSummary env.summary with ⟨evs, out⟩
    have hevs : Event.write p ∉ evs := by
      have h0 := fetchSummaryGo_no_write env.summary p MAX_RETRIES 0
      rw [show fetchSummaryGo env.summary 0 MAX_RETRIES = (evs, out) from hfs]
        at h0
      exact h0
    rcases out with _ | _ | body
    · simp [process_date, hc, hfs] at h
      exact absurd h hevs
    · simp [process_date, hc, hfs] at h
      exact absurd h hevs
    · rcases hex : extractPdfs body with e | ps
      · simp [process_date, hc, hfs, hex] at h
        exact absurd h hevs
      · simp only [process_date, hc, Bool.false_eq_true, if_false, hfs, hex,
          List.mem_append] at h
        rcases h with h | h
        · exact absurd h hevs
        · exact downloadAll_write env.download outputDir d p ps 0 h

/-- Witness for C7: the one-entry world writes to the fixed per-date path. -/
theorem c7_fixed_artifact_path_witness :
    Event.write "boe/2024/01/07/boe.pdf" ∈
        (process_date envOneEntry "boe" ⟨2024, 1, 7⟩).1 ∧
      "boe/2024/01/07/boe.pdf" = pdfPath "boe" ⟨2024, 1, 7⟩ :=
  ⟨by decide,
    c7_fixed_artifact_path envOneEntry "boe" ⟨2024, 1, 7⟩
      "boe/2024/01/07/boe.pdf" (by decide)⟩

/-- A download whose every attempt fails makes exactly `MAX_RETRIES` fetches
with sleeps of 30 s and 60 s between them, then re-raises. -/
theorem download_pdf_allfail (dl : Nat → Bool) (path : String)
    (h : ∀ a, dl a = false) :
    download_pdf dl path =
      ([.artifactFetch, .sleep (RETRY_DELAY * 1), .artifactFetch,
        .sleep (RETRY_DELAY * 2), .artifactFetch], .error ()) := by
  simp [download_pdf, MAX_RETRIES, downloadPdfGo, h]

/-- Every `download_pdf` call performs at least one artifact fetch. -/
theorem download_pdf_fetch_pos (dl : Nat → Bool) (path : String) :
    1 ≤ (download_pdf dl path).1.count .artifactFetch := by
  by_cases h0 : dl 0 <;> by_cases h1 : dl 1 <;> by_cases h2 : dl 2 <;>
    simp [download_pdf, MAX_RETRIES, downloadPdfGo, h0, h1, h2,
      List.count_cons]

/-- The download loop counts at most one success per discovered entry. -/
theorem downloadAll_count_le (dl : Nat → Nat → Bool) (o : String) (d : Date) :
    ∀ (ps : List (Json × Json)) (i : Nat),
      (downloadAll dl o d ps i).2 ≤ ps.length := by
  intro ps
  induction ps with
  | nil => intro i; simp [downloadAll]
  | cons q rest ih =>
    intro i
    simp only [downloadAll, List.length_cons]
    have hle := ih (i + 1)
    rcases hres : (download_pdf (dl i) (pdfPath o d)).2 with u | u <;>
      simp [hres] <;> omega

/-- If the entry at position `j` fails every attempt, fewer than all entries
are counted as downloaded. -/
theorem downloadAll_count_lt (dl : Nat → Nat → Bool) (o : String) (d : Date)
    (j : Nat) (hj : ∀ a, dl j a = false) :
    ∀ (ps : List (Json × Json)) (i : Nat), i ≤ j → j < i + ps.length →
      (downloadAll dl o d ps i).2 < ps.length := by
  intro ps
  induction ps with
  | nil =>
    intro i h1 h2
    simp [downloadAll] at h2 ⊢
    omega
  | cons q rest ih =>
    intro i h1 h2
    simp only [downloadAll, List.length_cons]
    by_cases hij : i = j
    · have hdl : (download_pdf (dl i) (pdfPath o d)).2 = .error () := by
        subst hij
        rw [download_pdf_allfail (dl i) (pdfPath o d) hj]
      have hle := downloadAll_count_le dl o d rest (i + 1)
      simp [hdl]
      omega
    · have hlt := ih (i + 1) (by omega) (by simp at h2; omega)
      rcases hres : (download_pdf (dl i) (pdfPath o d)).2 with u | u <;>
        simp [hres] <;> omega

/-- The download loop fetches at least once per discovered entry. -/
theorem downloadAll_fetch_ge (dl : Nat → Nat → Bool) (o : String) (d : Date) :
    ∀ (ps : List (Json × Json)) (i : Nat),
      ps.length ≤ (downloadAll dl o d ps i).1.count .artifactFetch := by
  intro ps
  induction ps with
  | nil => intro i; simp [downloadAll]
  | cons q rest ih =>
    intro i
    simp only [downloadAll, List.count_append, List.length_cons]
    have h1 := download_pdf_fetch_pos (dl i) (pdfPath o d)
    have h2 := ih (i + 1)
    omega

/-- With one entry failing every attempt, the download loop still fetches at
least once per entry plus the failing entry's two extra retry attempts. -/
theorem downloadAll_fetch_fail (dl : Nat → Nat → Bool) (o : String) (d : Date)
    (j : Nat) (hj : ∀ a, dl j a = false) :
    ∀ (ps : List (Json × Json)) (i : Nat), i ≤ j → j < i + ps.length →
      ps.length + 2 ≤ (downloadAll dl o d ps i).1.count .artifactFetch := by
  intro ps
  induction ps with
  | nil =>
    intro i h1 h2
    simp at h2
    omega
  | cons q rest ih =>
    intro i h1 h2
    simp only [downloadAll, List.count_append, List.length_cons]
    by_cases hij : i = j
    · have hdl := download_pdf_allfail (dl i) (pdfPath o d) (hij ▸ hj)
      rw [hdl]
      have hge := downloadAll_fetch_ge dl o d rest (i + 1)
      simp [List.count_cons]
      omega
    · have hlt := ih (i + 1) (by omega) (by simp at h2; omega)
      have hpos := download_pdf_fetch_pos (dl i) (pdfPath o d)
      omega

/-- Claim C3: when the summary yields `k` URL-bearing entries and the entry
at position `j` fails all its retries, `process_date` still issues at least
one fetch per entry (plus the failed entry's retries), returns a count
strictly below `k`, and reports `success` without raising. -/
theorem c3_one_failure_continues (env : Env) (outputDir : String) (d : Date)
    (body : Json) (ps : List (Json × Json)) (j : Nat)
    (hc : env.cached = false)
    (hs : (fetchSummary env.summary).2 = .got body)
    (he : extractPdfs body = .ok ps)
    (hj : j < ps.length)
    (hfail : ∀ a, env.download j a = false) :
    ∃ n, (process_date env outputDir d).2 = .ok (n, "success") ∧
      n < ps.length ∧
      ps.length + 2 ≤ (process_date env outputDir d).1.count .artifactFetch := by
  rcases hfs : fetchSummary env.summary with ⟨evs, out⟩
  rw [hfs] at hs
  have hout : out = .got body := hs
  subst hout
  have hpd := process_date_success_case env outputDir d body ps evs hc hfs he
  refine ⟨(downloadAll env.download outputDir d ps 0).2, ?_, ?_, ?_⟩
  · rw [hpd]
  · exact downloadAll_count_lt env.download outputDir d j hfail ps 0
      (Nat.zero_le j) (by omega)
  · rw [hpd]
    simp only [List.count_append]
    have hff := downloadAll_fetch_fail env.download outputDir d j hfail ps 0
      (Nat.zero_le j) (by omega)
    omega

/-- A summary body with two publication entries carrying URLs. -/
def bodyTwoEntries : Json :=
  .obj [("data", .obj [("sumario", .obj [("diario", .arr
    [.obj [("sumario_diario", .obj [("url_pdf", .obj [("texto", .str "u1")]),
      ("identificador", .str "A-1")])],
     .obj [("sumario_diario", .obj [("url_pdf", .obj [("texto", .str "u2")]),
      ("identificador", .str "A-2")])]])])])]

/-- A world yielding `bodyTwoEntries` where download 0 always fails and every
other download succeeds at once. -/
def envOneFails : Env :=
  ⟨false, fun _ => .ok bodyTwoEntries, fun i _ => i != 0⟩

/-- Witness for C3 with two entries, the first failing all its attempts. -/
theorem c3_one_failure_continues_witness :
    envOneFails.cached = false ∧
      (fetchSummary envOneFails.summary).2 = .got bodyTwoEntries ∧
      extractPdfs bodyTwoEntries =
        .ok [(.str "u1", .str "A-1"), (.str "u2", .str "A-2")] ∧
      0 < 2 ∧ (∀ a, envOneFails.download 0 a = false) ∧
      ∃ n, (process_date envOneFails "boe" ⟨2024, 1, 7⟩).2 =
          .ok (n, "success") ∧
        n < ([((Json.str "u1"), Json.str "A-1"),
          (Json.str "u2", Json.str "A-2")] : List (Json × Json)).length ∧
        ([((Json.str "u1"), Json.str "A-1"),
          (Json.str "u2", Json.str "A-2")] : List (Json × Json)).length + 2 ≤
          (process_date envOneFails "boe" ⟨2024, 1, 7⟩).1.count .artifactFetch :=
  ⟨rfl, rfl, rfl, by decide, fun _ => rfl,
    c3_one_failure_continues envOneFails "boe" ⟨2024, 1, 7⟩ bodyTwoEntries
      [(.str "u1", .str "A-1"), (.str "u2", .str "A-2")] 0 rfl rfl rfl
      (by decide) (fun _ => rfl)⟩

/-- Claim C10: whenever `process_date` returns a day outcome `(n, s)` (no
uncaught exception), `s` is one of the four status tags, `n` is `0` for a
non-`success` status, and `n` never exceeds the number of URL-bearing
entries extracted from the summary body. -/
theorem c10_outcome_invariants (env : Env) (outputDir : String) (d : Date)
    (n : Nat) (s : String)
    (h : (process_date env outputDir d).2 = .ok (n, s)) :
    (s = "cached" ∨ s = "no_boe" ∨ s = "success" ∨ s = "error") ∧
      (s ≠ "success" → n = 0) ∧
      (∀ body ps, (fetchSummary env.summary).2 = .got body →
        extractPdfs body = .ok ps → n ≤ ps.length) := by
  by_cases hc : env.cached
  · simp [process_date, hc] at h
    obtain ⟨hn, hs⟩ := h
    subst hn
    subst hs
    exact ⟨Or.inl rfl, fun _ => rfl, fun _ ps _ _ => Nat.zero_le _⟩
  · rcases hfs : fetchSummary env.summary with ⟨evs, out⟩
    rcases out with _ | _ | body
    · simp [process_date, hc, hfs] at h
      obtain ⟨hn, hs⟩ := h
      subst hn
      subst hs
      refine ⟨Or.inr (Or.inl rfl), fun _ => rfl, fun b ps hso _ => ?_⟩
      simp at hso
    · simp [process_date, hc, hfs] at h
      obtain ⟨hn, hs⟩ := h
      subst hn
      subst hs
      refine ⟨Or.inr (Or.inr (Or.inr rfl)), fun _ => rfl, fun b ps hso _ => ?_⟩
      simp at hso
    · rcases hex : extractPdfs body with u | ps
      · simp [process_date, hc, hfs, hex] at h
      · simp [process_date, hc, hfs, hex] at h
        obtain ⟨hn, hs⟩ := h
        subst hn
        subst hs
        refine ⟨Or.inr (Or.inr (Or.inl rfl)), fun hne => absurd rfl hne,
          fun b ps' hso hex' => ?_⟩
        have hb : body = b := by
          simpa using hso
        subst hb
        rw [hex] at hex'
        have hps : ps = ps' := by
          simpa using hex'
        subst hps
        exact downloadAll_count_le env.download outputDir d ps 0

/-- Witness for C10 at the one-entry world, whose outcome is
`(1, "success")`. -/
theorem c10_outcome_invariants_witness :
    (process_date envOneEntry "boe" ⟨2024, 1, 7⟩).2 = .ok (1, "success") ∧
      (("success" : String) = "cached" ∨ ("success" : String) = "no_boe" ∨
        ("success" : String) = "success" ∨ ("success" : String) = "error") ∧
      (("success" : String) ≠ "success" → 1 = 0) ∧
      (∀ body ps, (fetchSummary envOneEntry.summary).2 = .got body →
        extractPdfs body = .ok ps → 1 ≤ ps.length) :=
  ⟨rfl, c10_outcome_invariants envOneEntry "boe" ⟨2024, 1, 7⟩ 1 "success" rfl⟩

end BOE
